import Mathlib

/-!
# Verification of the Jupe weather anomaly-detection core

Shallow embedding of the core modules of the Jupe repository:

* `ghcn_flag_handler.py` — GHCN flag parsing and quality scoring
  (`parse_flags`, `is_quality_issue`, `is_high_quality_source`,
  `calculate_quality_score`);
* `comprehensive_anomaly_detector.py` — per-element baseline statistics
  (`calculate_element_baseline`) and z-score anomaly classification
  (`detect_element_anomaly`);
* `enhanced_weather_anomaly_detector.py` — QA checks
  (`temporal_persistence_check`, `internal_consistency_check`) and the
  contamination-rate selection of `train_models`;
* `demo_app.py` — the month/day windowed station baseline
  (`calculate_station_baseline`).

Numeric values are embedded as rationals (`ℚ`); Python `NaN` / missing
values are `Option ℚ`; Python strings are embedded as `String` for the
flag tables and as `List Char` where character-level parsing is proved.
Where the source computes a standard deviation `std = sqrt(var)` we carry
the (rational) sample variance `var` instead, since the square root of a
rational is not rational in general; `std = 0 ↔ var = 0` and
`std > 0 ↔ var > 0`, so every guard and claim about `std` transfers.
-/

/-! ## ghcn_flag_handler.py — flag tables and quality scoring -/

/-- Keys of the `quality_flags` dictionary of `GHCNFlagHandler`
(`_init_quality_flags`). -/
def quality_flags_keys : List String :=
  ["", "D", "G", "I", "K", "L", "M", "N", "O", "R", "S", "T", "W", "X", "Z"]

/-- `GHCNFlagHandler.is_quality_issue`: true iff the quality flag is
non-empty and present in the quality-flag table. -/
def is_quality_issue (qflag : String) : Bool :=
  qflag ≠ "" && quality_flags_keys.contains qflag

/-- `GHCNFlagHandler.is_high_quality_source`: membership in the fixed
allow-list of high-confidence sources. -/
def is_high_quality_source (sflag : String) : Bool :=
  ["R", "D", "0", "6", "C", "X", "W", "K", "7", "F", "B", "M"].contains sflag

/-- `GHCNFlagHandler.calculate_quality_score`: start at 100, deduct
10/25/50 for minor/moderate/major quality flags, 15 for a source not in
the high-quality allow-list, 5 for a trace measurement flag and 20 for a
missing-presumed-zero measurement flag, then floor at 0. -/
def calculate_quality_score (mflag qflag sflag : String) : ℚ :=
  let score : ℚ := 100
  let score :=
    if is_quality_issue qflag then
      if qflag ∈ (["D", "G", "I", "K", "L"] : List String) then score - 10
      else if qflag ∈ (["M", "N", "O", "R", "S", "T"] : List String) then score - 25
      else if qflag ∈ (["W", "X", "Z"] : List String) then score - 50
      else score
    else score
  let score := if is_high_quality_source sflag then score else score - 15
  let score :=
    if mflag ∈ (["T"] : List String) then score - 5
    else if mflag ∈ (["P"] : List String) then score - 20
    else score
  max 0 score

/-! ## ghcn_flag_handler.py — `parse_flags`

The parser works character by character (Python `str.strip` and
`str.split(',')`), so it is embedded over `List Char`.  The branch of the
Python source that receives an `int`/`float` argument (runtime type
dispatch) cannot arise for a string input and is therefore not part of
the string-input embedding. -/

/-- The whitespace characters stripped by Python `str.strip()`. -/
def isPyWhitespace (c : Char) : Bool :=
  c = ' ' || c = '\t' || c = '\n' || c = '\r' || c = '\x0b' || c = '\x0c'

/-- Left part of Python `str.strip()`. -/
def stripLeft (l : List Char) : List Char := l.dropWhile isPyWhitespace

/-- Python `str.strip()`: drop whitespace from both ends. -/
def strip (l : List Char) : List Char :=
  ((stripLeft l).reverse.dropWhile isPyWhitespace).reverse

/-- Python `str.split(',')`: split into the (always non-empty) list of
comma-separated segments. -/
def splitOnComma : List Char → List (List Char)
  | [] => [[]]
  | c :: cs =>
    if c = ',' then [] :: splitOnComma cs
    else
      match splitOnComma cs with
      | [] => [[c]]
      | p :: ps => (c :: p) :: ps

/-- The parsed measurement/quality/source flag triplet returned by
`parse_flags`. -/
structure FlagTriplet where
  mflag : List Char
  qflag : List Char
  sflag : List Char
deriving DecidableEq, Repr

/-- `GHCNFlagHandler.parse_flags` on a string input: empty input gives the
all-empty triplet; a stripped input containing a comma is split into up to
three stripped fields; otherwise the whole stripped input is the source
flag. -/
def parse_flags (attribute_string : List Char) : FlagTriplet :=
  if attribute_string = [] then ⟨[], [], []⟩
  else
    let t := strip attribute_string
    if ',' ∈ t then
      let parts := splitOnComma t
      { mflag := strip (parts.getD 0 [])
        qflag := strip (parts.getD 1 [])
        sflag := strip (parts.getD 2 []) }
    else
      ⟨[], [], t⟩

/-! ## Shared descriptive statistics (pandas `mean`, `std`, `min`, `max`,
`quantile`)

pandas `Series.std()` uses the sample convention (`ddof=1`); we carry its
square, the sample variance.  `Series.quantile(q)` uses linear
interpolation over the sorted values. -/

/-- pandas `Series.mean()` over the non-missing values. -/
def listMean (l : List ℚ) : ℚ := l.sum / l.length

/-- Square of pandas `Series.std()` (`ddof=1`): the sample variance
`Σ (x − mean)² / (n − 1)`. -/
def sampleVar (l : List ℚ) : ℚ :=
  (l.map (fun x => (x - listMean l) ^ 2)).sum / ((l.length : ℚ) - 1)

/-- pandas `Series.min()` on a non-empty series. -/
def listMin : List ℚ → ℚ
  | [] => 0
  | x :: xs => xs.foldl min x

/-- pandas `Series.max()` on a non-empty series. -/
def listMax : List ℚ → ℚ
  | [] => 0
  | x :: xs => xs.foldl max x

/-- Insertion into a sorted list (helper for sorting a series). -/
def insertSorted (x : ℚ) : List ℚ → List ℚ
  | [] => [x]
  | y :: ys => if x ≤ y then x :: y :: ys else y :: insertSorted x ys

/-- Sort a series ascending (insertion sort). -/
def sortQ (l : List ℚ) : List ℚ := l.foldr insertSorted []

/-- pandas `Series.quantile(q)` with the default linear interpolation:
with sorted values `s` of length `n`, position `h = (n−1)·q`, the result
is `s[⌊h⌋] + (h − ⌊h⌋)·(s[⌊h⌋+1] − s[⌊h⌋])`. -/
def quantileLinear (l : List ℚ) (q : ℚ) : ℚ :=
  let s := sortQ l
  if s.length = 0 then 0
  else
    let h : ℚ := ((s.length : ℚ) - 1) * q
    let i : ℕ := (⌊h⌋).toNat
    let lo := s.getD i 0
    let hi := s.getD (i + 1) lo
    lo + (h - (⌊h⌋ : ℚ)) * (hi - lo)

/-! ## comprehensive_anomaly_detector.py — baseline engine

One row of the observation table restricted to the columns
`calculate_element_baseline` reads for one element: the `DATE` (embedded
as an integer day number, so `timedelta(days=30)` is `± 30`) and the
element's value (`Option ℚ`, `none` for `NaN`). -/

structure CRow where
  date : ℤ
  value : Option ℚ
deriving DecidableEq, Repr

/-- The row filter of `calculate_element_baseline`: dates within
`[target − 30, target + 30]`, excluding the target date itself. -/
def elementBaselineSelect (data : List CRow) (target_date : ℤ) : List CRow :=
  data.filter fun r =>
    decide (target_date - 30 ≤ r.date ∧ r.date ≤ target_date + 30 ∧
      r.date ≠ target_date)

/-- The statistics dictionary returned by `calculate_element_baseline`.
The Python dict carries `std`; we carry `var = std²` (see the file
header). -/
structure ElementBaseline where
  mean : ℚ
  var : ℚ
  sample_size : ℕ
  min : ℚ
  max : ℚ
  percentile_25 : ℚ
  percentile_75 : ℚ
deriving DecidableEq, Repr

/-- `ComprehensiveAnomalyDetector.calculate_element_baseline`: filter the
±30-day window around the target date (excluding the target date), drop
missing values, return `none` if the window is empty, fewer than 5 valid
readings remain, or the sample standard deviation is zero (`std = 0 ↔
var = 0`); otherwise return the statistics. -/
def calculate_element_baseline (data : List CRow) (target_date : ℤ) :
    Option ElementBaseline :=
  let baseline_data := elementBaselineSelect data target_date
  if baseline_data = [] then none
  else
    let element_data := baseline_data.filterMap CRow.value
    if element_data.length < 5 then none
    else
      let mean_val := listMean element_data
      let var_val := sampleVar element_data
      if var_val = 0 then none
      else
        some { mean := mean_val
               var := var_val
               sample_size := element_data.length
               min := listMin element_data
               max := listMax element_data
               percentile_25 := quantileLinear element_data (1/4)
               percentile_75 := quantileLinear element_data (3/4) }

/-! ## comprehensive_anomaly_detector.py — anomaly classifier -/

/-- The baseline fields read by `detect_element_anomaly`
(`baseline['mean']` and `baseline['std']`).  Here the standard deviation
itself is an input (e.g. 10.0 in the spec's scenario), so it is carried
directly. -/
structure DetectBaseline where
  mean : ℚ
  std : ℚ
deriving DecidableEq, Repr

inductive AnomalyType where
  | High
  | Low
deriving DecidableEq, Repr

inductive Severity where
  | mild
  | moderate
  | extreme
deriving DecidableEq, Repr

/-- The fields of the anomaly dictionary returned by
`detect_element_anomaly` (the element name and generated explanation
text are omitted: no claim concerns them). -/
structure AnomalyResult where
  value : ℚ
  z_score : ℚ
  anomaly_type : AnomalyType
  severity : Severity
  threshold : ℚ
deriving DecidableEq, Repr

/-- The severity expression of `detect_element_anomaly`:
`"extreme" if abs(z) > 3 else "moderate" if abs(z) > 2 else "mild"`. -/
def severityOf (z : ℚ) : Severity :=
  if |z| > 3 then .extreme else if |z| > 2 then .moderate else .mild

/-- `ComprehensiveAnomalyDetector.detect_element_anomaly`: `none` when the
value is missing or the baseline is absent; otherwise compute
`z = (value − mean)/std` and return an anomaly iff `|z| >
confidence_threshold`, with direction `High` for `z > 0` and `Low`
otherwise. -/
def detect_element_anomaly (value : Option ℚ) (baseline : Option DetectBaseline)
    (confidence_threshold : ℚ) : Option AnomalyResult :=
  match value, baseline with
  | some v, some b =>
    let z := (v - b.mean) / b.std
    let threshold := confidence_threshold * b.std
    if |z| > confidence_threshold then
      some { value := v
             z_score := z
             anomaly_type := if z > 0 then .High else .Low
             severity := severityOf z
             threshold := threshold }
    else none
  | _, _ => none

/-! ## enhanced_weather_anomaly_detector.py — QA checks

One row of the dataset restricted to the raw `TMAX`/`TMIN` columns (in
tenths of °C; `none` for `NaN`), which is what
`temporal_persistence_check` and `internal_consistency_check` read. -/

structure ERow where
  tmax : Option ℚ
  tmin : Option ℚ
deriving DecidableEq, Repr

/-- The two temperature columns scanned by `temporal_persistence_check`. -/
inductive Col where
  | TMAX
  | TMIN
deriving DecidableEq, Repr

/-- The run-length accumulation loop of `temporal_persistence_check`:
given the previous value, the current run length and the remaining
values, produce the list `consecutive_counts` (the final run is appended
after the loop). -/
def runCounts (prev : ℚ) (cur : ℕ) : List ℚ → List ℕ
  | [] => [cur]
  | x :: xs => if x = prev then runCounts x (cur + 1) xs else cur :: runCounts x 1 xs

/-- `max(consecutive_counts)` of `temporal_persistence_check` (on empty
data the loop leaves the initial `current_count = 1`). -/
def maxConsecutive : List ℚ → ℕ
  | [] => 1
  | x :: xs => (runCounts x 1 xs).foldl max 0

/-- One element's contribution to `temporal_persistence_check`: the check
only runs when more than 10 non-missing values are present, and appends
one finding when the longest run of identical consecutive values exceeds
7.  A finding is embedded as the pair (column, run length) carried by the
message string. -/
def persistenceFindingsFor (col : Col) (data : List ℚ) : List (Col × ℕ) :=
  if data.length > 10 then
    if maxConsecutive data > 7 then [(col, maxConsecutive data)] else []
  else []

/-- `EnhancedWeatherAnomalyDetector.temporal_persistence_check` over the
`TMAX` and `TMIN` columns. -/
def temporal_persistence_check (df : List ERow) : List (Col × ℕ) :=
  persistenceFindingsFor .TMAX (df.filterMap ERow.tmax) ++
    persistenceFindingsFor .TMIN (df.filterMap ERow.tmin)

/-- The findings of `internal_consistency_check`, embedded as the
structured content of the two message strings: the number of `TMAX <
TMIN` cases, or the number of extreme (> 50 °C) daily-range cases. -/
inductive ConsistencyFinding where
  | tmaxLtTmin (cases : ℕ)
  | extremeRange (cases : ℕ)
deriving DecidableEq, Repr

/-- Row predicate: both temperatures present and `TMAX_C < TMIN_C`
(`TMAX_C = TMAX/10`, `TMIN_C = TMIN/10`). -/
def tmaxLtTminViolation (r : ERow) : Bool :=
  match r.tmax, r.tmin with
  | some a, some b => decide (a / 10 < b / 10)
  | _, _ => false

/-- Row predicate: both temperatures present and the daily range
`TMAX_C − TMIN_C` exceeds 50 °C. -/
def extremeRangeViolation (r : ERow) : Bool :=
  match r.tmax, r.tmin with
  | some a, some b => decide (a / 10 - b / 10 > 50)
  | _, _ => false

/-- `EnhancedWeatherAnomalyDetector.internal_consistency_check`: one
finding counting all `TMAX < TMIN` rows when any exist, then one finding
counting all extreme-range rows when any exist. -/
def internal_consistency_check (df : List ERow) : List ConsistencyFinding :=
  let inconsistent := df.countP tmaxLtTminViolation
  let extreme_ranges := df.countP extremeRangeViolation
  (if inconsistent > 0 then [ConsistencyFinding.tmaxLtTmin inconsistent] else []) ++
    (if extreme_ranges > 0 then [ConsistencyFinding.extremeRange extreme_ranges] else [])

/-! ## enhanced_weather_anomaly_detector.py — `train_models`
contamination selection

`train_models` sets `contamination_rate = 0.1`, raises it to `0.15` when
`optimize` is set and the QA audit recorded more than 5 total issues, and
passes that rate to all three models (`IsolationForest(contamination=
rate)`, `LocalOutlierFactor(contamination=rate)`, `OneClassSVM(nu=
rate)`).  The fitted sklearn models themselves are external library
state; the embedding records the rate each model is configured with. -/

structure EnsembleConfig where
  isolation_forest_contamination : ℚ
  local_outlier_factor_contamination : ℚ
  one_class_svm_nu : ℚ
deriving DecidableEq, Repr

/-- The contamination-rate configuration performed by
`EnhancedWeatherAnomalyDetector.train_models`, as a function of the
`optimize` argument and `qa_results['total_issues']`. -/
def train_models_config (optimize : Bool) (total_issues : ℕ) : EnsembleConfig :=
  let contamination_rate : ℚ := if optimize ∧ total_issues > 5 then 0.15 else 0.1
  { isolation_forest_contamination := contamination_rate
    local_outlier_factor_contamination := contamination_rate
    one_class_svm_nu := contamination_rate }

/-! ## demo_app.py — `calculate_station_baseline`

One row of the station table restricted to the columns the function
reads: the precomputed `MONTH` and `DAY` calendar columns, the `DATE`
(as an integer day number, used only for the reported date range) and
the Fahrenheit temperature columns. -/

structure SRow where
  month : ℤ
  day : ℤ
  date : ℤ
  tmaxF : Option ℚ
  tminF : Option ℚ
deriving DecidableEq, Repr

/-- The target date's fields read by `calculate_station_baseline`
(`target_date.month`, `target_date.day`). -/
structure TargetDate where
  month : ℤ
  day : ℤ
deriving DecidableEq, Repr

/-- The row filter of `calculate_station_baseline`: same `MONTH` as the
target, and `DAY` between `max(1, target_day − 15)` and
`min(31, target_day + 15)`. -/
def stationBaselineSelect (station_data : List SRow) (t : TargetDate) : List SRow :=
  station_data.filter fun r =>
    decide (r.month = t.month ∧ max 1 (t.day - 15) ≤ r.day ∧
      r.day ≤ min 31 (t.day + 15))

/-- pandas `Series.min()` over the integer `DATE` column. -/
def listMinInt : List ℤ → ℤ
  | [] => 0
  | x :: xs => xs.foldl min x

/-- pandas `Series.max()` over the integer `DATE` column. -/
def listMaxInt : List ℤ → ℤ
  | [] => 0
  | x :: xs => xs.foldl max x

/-- The baseline dictionary returned by `calculate_station_baseline`
(variance in place of the Python `std`, see the file header; the
`date_range` strings are carried as the underlying day numbers). -/
structure StationBaseline where
  tmax_f_mean : ℚ
  tmax_f_var : ℚ
  sample_size : ℕ
  date_start : ℤ
  date_end : ℤ
  tmin_f_mean : Option ℚ
  tmin_f_var : Option ℚ
deriving DecidableEq, Repr

/-- `demo_app.calculate_station_baseline`: filter by the month/day
window, require at least 10 rows and at least 5 non-missing `TMAX_F`
values, then report mean/std statistics (TMIN only when it also has at
least 5 valid readings).  The final `pd.isna` re-check of the computed
mean/std cannot fire for rational data (the mean and sample variance of
at least 5 rationals are rationals) and is omitted. -/
def calculate_station_baseline (station_data : List SRow) (t : TargetDate) :
    Option StationBaseline :=
  let baseline_data := stationBaselineSelect station_data t
  if baseline_data.length < 10 then none
  else
    let tmax_data := baseline_data.filterMap SRow.tmaxF
    let tmin_data := baseline_data.filterMap SRow.tminF
    if tmax_data.length < 5 then none
    else
      some { tmax_f_mean := listMean tmax_data
             tmax_f_var := sampleVar tmax_data
             sample_size := baseline_data.length
             date_start := listMinInt (baseline_data.map SRow.date)
             date_end := listMaxInt (baseline_data.map SRow.date)
             tmin_f_mean := if 5 ≤ tmin_data.length then some (listMean tmin_data) else none
             tmin_f_var := if 5 ≤ tmin_data.length then some (sampleVar tmin_data) else none }

/-! ## Spec-claim model for the station-baseline window (claim about
day-of-year windowing)

The claim states that `calculate_station_baseline` selects the
observations whose day-of-year lies within ±15 days of the target
date's day-of-year, across all years, a window that may span a month
boundary.  The following definitions follow the claim's words (with the
standard non-leap-year day-of-year numbering) so that they can be
compared with the selection the source actually performs. -/

/-- Day of year of a (month, day) pair, non-leap-year numbering; named
after the claim's words, to be compared with the source's selection. -/
def dayOfYearClaim (month day : ℤ) : ℤ :=
  (if month = 1 then 0
   else if month = 2 then 31
   else if month = 3 then 59
   else if month = 4 then 90
   else if month = 5 then 120
   else if month = 6 then 151
   else if month = 7 then 181
   else if month = 8 then 212
   else if month = 9 then 243
   else if month = 10 then 273
   else if month = 11 then 304
   else 334) + day

/-- The selection the claim describes: observations whose day-of-year is
within ±15 of the target's day-of-year, across all years. -/
def stationBaselineSelectClaim (station_data : List SRow) (t : TargetDate) :
    List SRow :=
  station_data.filter fun r =>
    decide (|dayOfYearClaim r.month r.day - dayOfYearClaim t.month t.day| ≤ 15)

/-! # Theorems for the claims -/

/-- **C1** (counterexample): with baseline mean 50, std 10 and
confidence threshold 2, an observed value of 80.0 yields z-score 3.0 but
severity `moderate`, not `extreme` as the claim states: the source marks
`extreme` only for `|z| > 3` strictly, so exactly at the `|z| = 3`
boundary the severity is `moderate`. -/
theorem c1_boundary_severity_counterexample :
    detect_element_anomaly (some 80) (some ⟨50, 10⟩) 2 =
      some { value := 80, z_score := 3, anomaly_type := .High,
             severity := .moderate, threshold := 20 } ∧
    ¬ (detect_element_anomaly (some 80) (some ⟨50, 10⟩) 2).map
        AnomalyResult.severity = some Severity.extreme := by
  constructor
  · norm_num [detect_element_anomaly, severityOf]
  · norm_num [detect_element_anomaly, severityOf]
    decide

/-- **C1** (amended): with a baseline of mean 50.0, std 10.0 and
confidence threshold 2.0, an observed value of 75.0 yields an anomaly
with z-score 2.5, direction `High` and severity `moderate`; an observed
value of 80.0 yields z-score 3.0 with severity `moderate` (exactly at
the `|z| = 3` boundary the severity is `moderate`; `extreme` requires
`|z| > 3` strictly). -/
theorem c1_classifier_scenario :
    detect_element_anomaly (some 75) (some ⟨50, 10⟩) 2 =
      some { value := 75, z_score := 5/2, anomaly_type := .High,
             severity := .moderate, threshold := 20 } ∧
    detect_element_anomaly (some 80) (some ⟨50, 10⟩) 2 =
      some { value := 80, z_score := 3, anomaly_type := .High,
             severity := .moderate, threshold := 20 } := by
  constructor
  · norm_num [detect_element_anomaly, severityOf, abs_of_nonneg]
  · norm_num [detect_element_anomaly, severityOf]

/-- **C7**: in a training run with optimization enabled, all three
models (Isolation Forest, Local Outlier Factor, One-Class SVM) are
configured with contamination / outlier-fraction 0.15 when the QA audit
found more than 5 total issues, and with 0.10 otherwise. -/
theorem c7_contamination_selection (total_issues : ℕ) :
    (5 < total_issues →
      train_models_config true total_issues =
        { isolation_forest_contamination := 0.15
          local_outlier_factor_contamination := 0.15
          one_class_svm_nu := 0.15 }) ∧
    (total_issues ≤ 5 →
      train_models_config true total_issues =
        { isolation_forest_contamination := 0.1
          local_outlier_factor_contamination := 0.1
          one_class_svm_nu := 0.1 }) := by
  constructor
  · intro h
    simp [train_models_config, h]
  · intro h
    simp [train_models_config, Nat.not_lt.mpr h]

/-- **C7** (witness): at 6 issues the rate is 0.15, at 3 issues it is
0.10. -/
theorem c7_contamination_selection_witness :
    train_models_config true 6 =
      { isolation_forest_contamination := 0.15
        local_outlier_factor_contamination := 0.15
        one_class_svm_nu := 0.15 } ∧
    train_models_config true 3 =
      { isolation_forest_contamination := 0.1
        local_outlier_factor_contamination := 0.1
        one_class_svm_nu := 0.1 } :=
  ⟨(c7_contamination_selection 6).1 (by decide),
   (c7_contamination_selection 3).2 (by decide)⟩

/-- **C4**: for every flag triplet, `calculate_quality_score` (a pure
function, hence deterministic) yields a value in [0, 100], and a triplet
with empty measurement and quality flags and a high-priority source flag
yields exactly 100. -/
theorem c4_quality_score_range (mflag qflag sflag : String) :
    (0 ≤ calculate_quality_score mflag qflag sflag ∧
      calculate_quality_score mflag qflag sflag ≤ 100) ∧
    (mflag = "" → qflag = "" → is_high_quality_source sflag = true →
      calculate_quality_score mflag qflag sflag = 100) := by
  constructor
  · unfold calculate_quality_score
    split_ifs <;> simp [max_le_iff, le_max_iff] <;> norm_num
  · intro hm hq hs
    subst hm hq
    unfold calculate_quality_score
    simp [hs, is_quality_issue]

/-- **C4** (witness): the all-empty triplet with the high-priority
source `"0"` scores exactly 100, within [0, 100]. -/
theorem c4_quality_score_range_witness :
    (0 ≤ calculate_quality_score "" "" "0" ∧
      calculate_quality_score "" "" "0" ≤ 100) ∧
    calculate_quality_score "" "" "0" = 100 :=
  ⟨(c4_quality_score_range "" "" "0").1,
   (c4_quality_score_range "" "" "0").2 rfl rfl (by decide)⟩

/-- **C9**: for every flag triplet the quality score is at least 15: the
worst total deduction is 50 (major quality flag) + 15 (non-high-priority
source) + 20 (presumed-zero measurement flag) = 85, so the floor-at-0
clamp of `calculate_quality_score` is never reached. -/
theorem c9_quality_score_floor_unreached (mflag qflag sflag : String) :
    15 ≤ calculate_quality_score mflag qflag sflag := by
  unfold calculate_quality_score
  split_ifs <;> simp [le_max_iff] <;> norm_num

/-- The sample variance of a series with at least 2 values is
nonnegative. -/
theorem sampleVar_nonneg (l : List ℚ) (h : 2 ≤ l.length) : 0 ≤ sampleVar l := by
  unfold sampleVar
  apply div_nonneg
  · apply List.sum_nonneg
    intro x hx
    obtain ⟨y, _, rfl⟩ := List.mem_map.mp hx
    positivity
  · have : (2 : ℚ) ≤ (l.length : ℚ) := by exact_mod_cast h
    linarith

/-- **C5**: `calculate_element_baseline` returns `none` whenever fewer
than 5 valid (non-missing) readings remain in the ±30-day window
excluding the target date, or the sample standard deviation of those
readings is zero (`std = 0 ↔ var = 0`); otherwise it returns a baseline
whose standard deviation is positive (`std > 0 ↔ var > 0`), so no
downstream division by zero is possible. -/
theorem c5_baseline_unavailable_guard (data : List CRow) (target_date : ℤ) :
    (((elementBaselineSelect data target_date).filterMap CRow.value).length < 5 ∨
        sampleVar ((elementBaselineSelect data target_date).filterMap CRow.value) = 0 →
      calculate_element_baseline data target_date = none) ∧
    (5 ≤ ((elementBaselineSelect data target_date).filterMap CRow.value).length →
      sampleVar ((elementBaselineSelect data target_date).filterMap CRow.value) ≠ 0 →
      ∃ b, calculate_element_baseline data target_date = some b ∧ 0 < b.var) := by
  constructor
  · intro h
    unfold calculate_element_baseline
    dsimp only
    split_ifs with h1 h2 h3
    · rfl
    · rfl
    · rfl
    · exfalso
      rcases h with h | h
      · exact h2 h
      · exact h3 h
  · intro hlen hvar
    have hA : ¬ elementBaselineSelect data target_date = [] := by
      intro h
      rw [h] at hlen
      simp at hlen
    have hB : ¬ ((elementBaselineSelect data target_date).filterMap CRow.value).length < 5 := by
      omega
    unfold calculate_element_baseline
    dsimp only
    rw [if_neg hA, if_neg hB, if_neg hvar]
    exact ⟨_, rfl, lt_of_le_of_ne (sampleVar_nonneg _ (by omega)) (Ne.symm hvar)⟩

/-- Concrete observation table for the C5 witness: five valid readings
1..5 on days 1..5, target day 0. -/
def c5data : List CRow :=
  [⟨1, some 1⟩, ⟨2, some 2⟩, ⟨3, some 3⟩, ⟨4, some 4⟩, ⟨5, some 5⟩]

/-- **C5** (witness): on `c5data` with target date 0 the window holds 5
valid readings with nonzero variance, and the baseline is returned with
positive variance. -/
theorem c5_baseline_unavailable_guard_witness :
    ∃ b, calculate_element_baseline c5data 0 = some b ∧ 0 < b.var := by
  have h1 : (elementBaselineSelect c5data 0).filterMap CRow.value =
      [1, 2, 3, 4, 5] := by decide
  refine (c5_baseline_unavailable_guard c5data 0).2 ?_ ?_
  · rw [h1]
    decide
  · rw [h1]
    norm_num [sampleVar, listMean]

/-- **C6**: a dataset containing a day with raw TMAX = 200 and TMIN =
300 (tenths of °C) and no extreme-range row yields exactly one
internal-consistency finding, the TMAX < TMIN violation; and in general
the check reports a TMAX < TMIN finding iff some row violates
TMAX ≥ TMIN, and an extreme-range finding iff some row has a daily range
above 50 °C. -/
theorem c6_internal_consistency :
    (∀ df : List ERow,
      (∃ r ∈ df, r.tmax = some 200 ∧ r.tmin = some 300) →
      (∀ r ∈ df, extremeRangeViolation r = false) →
      ∃ n, 0 < n ∧
        internal_consistency_check df = [ConsistencyFinding.tmaxLtTmin n]) ∧
    (∀ df : List ERow,
      ((∃ n, ConsistencyFinding.tmaxLtTmin n ∈ internal_consistency_check df) ↔
        ∃ r ∈ df, tmaxLtTminViolation r = true) ∧
      ((∃ n, ConsistencyFinding.extremeRange n ∈ internal_consistency_check df) ↔
        ∃ r ∈ df, extremeRangeViolation r = true)) := by
  constructor
  · intro df hrow hnorange
    obtain ⟨r, hrmem, hr1, hr2⟩ := hrow
    have hviol : 0 < df.countP tmaxLtTminViolation := by
      refine List.countP_pos_iff.mpr ⟨r, hrmem, ?_⟩
      simp only [tmaxLtTminViolation, hr1, hr2]
      rw [decide_eq_true_eq]
      norm_num
    have hrange : df.countP extremeRangeViolation = 0 := by
      refine List.countP_eq_zero.mpr ?_
      intro r' hr'
      simp [hnorange r' hr']
    refine ⟨df.countP tmaxLtTminViolation, hviol, ?_⟩
    unfold internal_consistency_check
    dsimp only
    rw [if_pos hviol, hrange, if_neg (lt_irrefl 0), List.append_nil]
  · intro df
    constructor
    · constructor
      · rintro ⟨n, hn⟩
        unfold internal_consistency_check at hn
        dsimp only at hn
        rw [List.mem_append] at hn
        rcases hn with hn | hn
        · split_ifs at hn with hv
          · exact List.countP_pos_iff.mp hv
          · simp at hn
        · split_ifs at hn <;> simp at hn
      · intro hex
        have hv : 0 < df.countP tmaxLtTminViolation := List.countP_pos_iff.mpr hex
        refine ⟨df.countP tmaxLtTminViolation, ?_⟩
        unfold internal_consistency_check
        dsimp only
        rw [if_pos hv]
        exact List.mem_append_left _ (List.mem_singleton.mpr rfl)
    · constructor
      · rintro ⟨n, hn⟩
        unfold internal_consistency_check at hn
        dsimp only at hn
        rw [List.mem_append] at hn
        rcases hn with hn | hn
        · split_ifs at hn <;> simp at hn
        · split_ifs at hn with hv
          · exact List.countP_pos_iff.mp hv
          · simp at hn
      · intro hex
        have hv : 0 < df.countP extremeRangeViolation := List.countP_pos_iff.mpr hex
        refine ⟨df.countP extremeRangeViolation, ?_⟩
        unfold internal_consistency_check
        dsimp only
        rw [if_pos hv]
        exact List.mem_append_right _ (List.mem_singleton.mpr rfl)

/-- **C6** (witness): the one-row dataset with raw TMAX = 200 and
TMIN = 300 yields exactly one finding, the TMAX < TMIN violation. -/
theorem c6_internal_consistency_witness :
    ∃ n, 0 < n ∧
      internal_consistency_check [⟨some 200, some 300⟩] =
        [ConsistencyFinding.tmaxLtTmin n] := by
  refine c6_internal_consistency.1 [⟨some 200, some 300⟩]
    ⟨⟨some 200, some 300⟩, by simp, rfl, rfl⟩ ?_
  intro r hr
  simp only [List.mem_singleton] at hr
  subst hr
  simp only [extremeRangeViolation]
  rw [decide_eq_false_iff_not]
  norm_num

/-- The run-length loop on a constant series extends the current run to
its end. -/
theorem runCounts_replicate (v : ℚ) (cur : ℕ) (n : ℕ) :
    runCounts v cur (List.replicate n v) = [cur + n] := by
  induction n generalizing cur with
  | zero => simp [runCounts]
  | succ m ih =>
    rw [List.replicate_succ]
    unfold runCounts
    rw [if_pos rfl, ih]
    congr 1
    omega

/-- The longest run of identical consecutive values in a constant
non-empty series is its length. -/
theorem maxConsecutive_replicate (v : ℚ) (n : ℕ) (h : 1 ≤ n) :
    maxConsecutive (List.replicate n v) = n := by
  obtain ⟨m, rfl⟩ : ∃ m, n = m + 1 := ⟨n - 1, by omega⟩
  rw [List.replicate_succ]
  show List.foldl max 0 (runCounts v 1 (List.replicate m v)) = m + 1
  rw [runCounts_replicate]
  simp only [List.foldl_cons, List.foldl_nil]
  omega

/-- **C3** (counterexample): on a dataset whose TMAX column is a run of
10 exactly-equal values the run length is 10, exceeding the threshold 7,
yet `temporal_persistence_check` returns no finding at all — the check
only engages when strictly more than 10 non-missing values are present —
so it does not return exactly one TMAX persistence finding as the claim
states. -/
theorem c3_run_of_10_counterexample :
    maxConsecutive ((List.replicate 10 (⟨some 250, none⟩ : ERow)).filterMap
        ERow.tmax) = 10 ∧
    temporal_persistence_check (List.replicate 10 ⟨some 250, none⟩) = [] ∧
    ¬ (temporal_persistence_check (List.replicate 10 ⟨some 250, none⟩)).countP
        (fun f => decide (f.1 = Col.TMAX)) = 1 := by
  refine ⟨by decide, by decide, by decide⟩

/-- **C3** (amended): for every dataset whose TMAX column is a run of 11
exactly-equal values (run length 11 exceeds both the fixed run-length
threshold 7 and the minimum column length 10 the check requires), the
temporal persistence check returns exactly one persistence finding for
TMAX. -/
theorem c3_persistence_run_of_11 (v : ℚ) (df : List ERow)
    (h : df.filterMap ERow.tmax = List.replicate 11 v) :
    (temporal_persistence_check df).countP
      (fun f => decide (f.1 = Col.TMAX)) = 1 := by
  unfold temporal_persistence_check
  rw [List.countP_append, h]
  have h1 : persistenceFindingsFor Col.TMAX (List.replicate 11 v) =
      [(Col.TMAX, 11)] := by
    unfold persistenceFindingsFor
    rw [maxConsecutive_replicate v 11 (by omega)]
    norm_num
  have h2 : (persistenceFindingsFor Col.TMIN (df.filterMap ERow.tmin)).countP
      (fun f => decide (f.1 = Col.TMAX)) = 0 := by
    unfold persistenceFindingsFor
    split_ifs <;> simp
  rw [h1, h2]
  simp

/-- **C3** (witness): an 11-row dataset whose TMAX column is eleven
copies of 250 produces exactly one TMAX persistence finding. -/
theorem c3_persistence_run_of_11_witness :
    (temporal_persistence_check (List.replicate 11 ⟨some 250, none⟩)).countP
      (fun f => decide (f.1 = Col.TMAX)) = 1 :=
  c3_persistence_run_of_11 250 (List.replicate 11 ⟨some 250, none⟩) (by decide)

/-- Concrete station table for the C2 counterexample: ten March rows
(days 1–10, TMAX 50 °F) and one February 28 row (TMAX 100 °F) whose
day-of-year (59) is within 10 days of the target March 10 (day-of-year
69). -/
def c2data : List SRow :=
  [⟨3, 1, 60, some 50, none⟩, ⟨3, 2, 61, some 50, none⟩,
   ⟨3, 3, 62, some 50, none⟩, ⟨3, 4, 63, some 50, none⟩,
   ⟨3, 5, 64, some 50, none⟩, ⟨3, 6, 65, some 50, none⟩,
   ⟨3, 7, 66, some 50, none⟩, ⟨3, 8, 67, some 50, none⟩,
   ⟨3, 9, 68, some 50, none⟩, ⟨3, 10, 69, some 50, none⟩,
   ⟨2, 28, 59, some 100, none⟩]

/-- **C2** (counterexample): with target date March 10, the February 28
row lies within ±15 days of the target's day-of-year, yet
`calculate_station_baseline`'s selection excludes it (it restricts to
the target's calendar month), so the selection differs from the
day-of-year window the claim describes. -/
theorem c2_month_boundary_counterexample :
    (⟨2, 28, 59, some 100, none⟩ : SRow) ∈
        stationBaselineSelectClaim c2data ⟨3, 10⟩ ∧
    (⟨2, 28, 59, some 100, none⟩ : SRow) ∉
        stationBaselineSelect c2data ⟨3, 10⟩ ∧
    stationBaselineSelect c2data ⟨3, 10⟩ ≠
        stationBaselineSelectClaim c2data ⟨3, 10⟩ := by
  refine ⟨by decide, by decide, by decide⟩

/-- **C2** (amended): `calculate_station_baseline` selects, for a given
target date, the observations of the same calendar month as the target
whose day-of-month lies within ±15 days of the target's day (the window
bounds being clamped to [1, 31]), across all years present in the
station data; the window never spans a month boundary. -/
theorem c2_station_window_same_month (data : List SRow) (t : TargetDate)
    (r : SRow) (h1 : 1 ≤ r.day) (h2 : r.day ≤ 31) :
    (r ∈ stationBaselineSelect data t ↔
      r ∈ data ∧ r.month = t.month ∧
        t.day - 15 ≤ r.day ∧ r.day ≤ t.day + 15) ∧
    (∀ s ∈ stationBaselineSelect data t, s.month = t.month) := by
  constructor
  · unfold stationBaselineSelect
    simp only [List.mem_filter, decide_eq_true_eq, max_le_iff, le_min_iff]
    constructor
    · rintro ⟨hm, hmo, ⟨_, hlo⟩, _, hhi⟩
      exact ⟨hm, hmo, hlo, hhi⟩
    · rintro ⟨hm, hmo, hlo, hhi⟩
      exact ⟨hm, hmo, ⟨h1, hlo⟩, h2, hhi⟩
  · intro s hs
    unfold stationBaselineSelect at hs
    rw [List.mem_filter, decide_eq_true_eq] at hs
    exact hs.2.1

/-- **C2** (witness): a March 20 row is selected for a March 10 target
(day within +15), and every selected row is in the target's month. -/
theorem c2_station_window_same_month_witness :
    (⟨3, 20, 79, some 60, none⟩ : SRow) ∈
        stationBaselineSelect [⟨3, 20, 79, some 60, none⟩] ⟨3, 10⟩ ∧
    (∀ s ∈ stationBaselineSelect [(⟨3, 20, 79, some 60, none⟩ : SRow)] ⟨3, 10⟩,
      s.month = (3 : ℤ)) := by
  have h := c2_station_window_same_month [⟨3, 20, 79, some 60, none⟩] ⟨3, 10⟩
    ⟨3, 20, 79, some 60, none⟩ (by decide) (by decide)
  exact ⟨h.1.mpr ⟨by decide, rfl, by decide, by decide⟩, h.2⟩

/-- **C10**: `calculate_station_baseline` does not exclude the target
date's own observation: a row whose month and day equal the target's is
selected, and its TMAX value enters the series whose mean and standard
deviation the baseline reports; by contrast the primary ±30-day baseline
(`calculate_element_baseline`) always excludes the row at the target
date. -/
theorem c10_target_row_included :
    (∀ (data : List SRow) (t : TargetDate) (r : SRow),
      r ∈ data → r.month = t.month → r.day = t.day →
      1 ≤ t.day → t.day ≤ 31 →
      r ∈ stationBaselineSelect data t ∧
        ∀ v, r.tmaxF = some v →
          v ∈ (stationBaselineSelect data t).filterMap SRow.tmaxF) ∧
    (∀ (data : List CRow) (target_date : ℤ) (r : CRow),
      r.date = target_date → r ∉ elementBaselineSelect data target_date) := by
  constructor
  · intro data t r hmem hmo hday hlo hhi
    have hsel : r ∈ stationBaselineSelect data t := by
      unfold stationBaselineSelect
      rw [List.mem_filter, decide_eq_true_eq]
      refine ⟨hmem, hmo, ?_, ?_⟩
      · rw [hday]
        rw [max_le_iff]
        omega
      · rw [hday]
        rw [le_min_iff]
        omega
    refine ⟨hsel, ?_⟩
    intro v hv
    exact List.mem_filterMap.mpr ⟨r, hsel, hv⟩
  · intro data target_date r hdate hmem
    unfold elementBaselineSelect at hmem
    rw [List.mem_filter, decide_eq_true_eq] at hmem
    exact hmem.2.2.2 hdate

/-- **C10** (witness): for target March 10, a March 10 row with TMAX
77 °F is selected and its value 77 enters the baseline series. -/
theorem c10_target_row_included_witness :
    (⟨3, 10, 69, some 77, none⟩ : SRow) ∈
        stationBaselineSelect [⟨3, 10, 69, some 77, none⟩] ⟨3, 10⟩ ∧
    (77 : ℚ) ∈ (stationBaselineSelect
        [(⟨3, 10, 69, some 77, none⟩ : SRow)] ⟨3, 10⟩).filterMap SRow.tmaxF := by
  have h := c10_target_row_included.1 [⟨3, 10, 69, some 77, none⟩] ⟨3, 10⟩
    ⟨3, 10, 69, some 77, none⟩ (by decide) rfl rfl (by decide) (by decide)
  exact ⟨h.1, h.2 77 rfl⟩

/-! ### Lemmas for the `parse_flags` round trip -/

/-- A list equal to its own strip is equal to its own left strip. -/
theorem stripLeft_eq_of_strip_eq {l : List Char} (h : strip l = l) :
    stripLeft l = l := by
  have h1 : (stripLeft l).length ≤ l.length :=
    (List.dropWhile_suffix isPyWhitespace).length_le
  have h2 : (strip l).length ≤ (stripLeft l).length := by
    unfold strip
    rw [List.length_reverse]
    calc ((stripLeft l).reverse.dropWhile isPyWhitespace).length
        ≤ (stripLeft l).reverse.length :=
          (List.dropWhile_suffix isPyWhitespace).length_le
      _ = (stripLeft l).length := List.length_reverse _
  have hlen : (stripLeft l).length = l.length := by
    rw [h] at h2
    omega
  exact (List.dropWhile_suffix isPyWhitespace).eq_of_length hlen

/-- A list equal to its own strip has a whitespace-free reversed head:
dropping whitespace from the reverse changes nothing. -/
theorem dropWhile_reverse_eq_of_strip_eq {l : List Char} (h : strip l = l) :
    l.reverse.dropWhile isPyWhitespace = l.reverse := by
  have h1 : stripLeft l = l := stripLeft_eq_of_strip_eq h
  have h2 : strip l = (l.reverse.dropWhile isPyWhitespace).reverse := by
    unfold strip
    rw [h1]
  rw [h] at h2
  rw [← List.reverse_inj, List.reverse_reverse]
  exact h2.symm

/-- Dropping whitespace distributes trivially over an append whose head
part is already whitespace-free and whose separator is a comma (not
whitespace). -/
theorem dropWhile_append_comma {m : List Char}
    (h : List.dropWhile isPyWhitespace m = m) (r : List Char) :
    List.dropWhile isPyWhitespace (m ++ ',' :: r) = m ++ ',' :: r := by
  cases m with
  | nil => simp [List.dropWhile_cons, isPyWhitespace]
  | cons a as =>
    have hpa : isPyWhitespace a = false := by
      by_cases hp : isPyWhitespace a = true
      · exfalso
        rw [List.dropWhile_cons, if_pos hp] at h
        have := (List.dropWhile_suffix (l := as) isPyWhitespace).length_le
        rw [h] at this
        simp at this
      · exact eq_false_of_ne_true hp
    rw [List.cons_append, List.dropWhile_cons, hpa]
    simp

/-- Stripping a well-formed comma-joined string with strip-invariant
first and last fields changes nothing. -/
theorem strip_comma_join {m s : List Char} (hm : strip m = m)
    (hs : strip s = s) (mid : List Char) :
    strip (m ++ ',' :: (mid ++ ',' :: s)) = m ++ ',' :: (mid ++ ',' :: s) := by
  have hleft : stripLeft (m ++ ',' :: (mid ++ ',' :: s)) =
      m ++ ',' :: (mid ++ ',' :: s) :=
    dropWhile_append_comma (stripLeft_eq_of_strip_eq hm) _
  unfold strip
  rw [hleft]
  have hrev : (m ++ ',' :: (mid ++ ',' :: s)).reverse =
      s.reverse ++ ',' :: (mid.reverse ++ ',' :: m.reverse) := by
    simp
  rw [hrev, dropWhile_append_comma (dropWhile_reverse_eq_of_strip_eq hs) _,
    ← hrev, List.reverse_reverse]

/-- `str.split(',')` on a comma-free string returns the whole string as
its only segment. -/
theorem splitOnComma_of_not_mem {s : List Char} (h : ',' ∉ s) :
    splitOnComma s = [s] := by
  induction s with
  | nil => rfl
  | cons a as ih =>
    have ha : a ≠ ',' := fun hc => h (hc ▸ List.mem_cons_self a as)
    have has : ',' ∉ as := fun hc => h (List.mem_cons_of_mem a hc)
    simp [splitOnComma, ha, ih has]

/-- `str.split(',')` splits off a comma-free head segment at the first
comma. -/
theorem splitOnComma_append {m : List Char} (h : ',' ∉ m) (r : List Char) :
    splitOnComma (m ++ ',' :: r) = m :: splitOnComma r := by
  induction m with
  | nil =>
    show splitOnComma (',' :: r) = [] :: splitOnComma r
    simp [splitOnComma]
  | cons a as ih =>
    have ha : a ≠ ',' := fun hc => h (hc ▸ List.mem_cons_self a as)
    have has : ',' ∉ as := fun hc => h (List.mem_cons_of_mem a hc)
    rw [List.cons_append]
    simp [splitOnComma, ha, ih has]

/-- **C8**: for every well-formed comma-delimited triplet string — three
comma-free, whitespace-trimmed fields joined by commas — `parse_flags`
recovers exactly the three fields, and re-joining the parsed triplet's
fields with the comma delimiter reproduces the original input string
exactly. -/
theorem c8_parse_flags_roundtrip (m q s : List Char)
    (hm : ',' ∉ m) (hq : ',' ∉ q) (hs : ',' ∉ s)
    (hm' : strip m = m) (hq' : strip q = q) (hs' : strip s = s) :
    parse_flags (m ++ ',' :: (q ++ ',' :: s)) = ⟨m, q, s⟩ ∧
    (parse_flags (m ++ ',' :: (q ++ ',' :: s))).mflag ++ ',' ::
        ((parse_flags (m ++ ',' :: (q ++ ',' :: s))).qflag ++ ',' ::
          (parse_flags (m ++ ',' :: (q ++ ',' :: s))).sflag) =
      m ++ ',' :: (q ++ ',' :: s) := by
  have hne : m ++ ',' :: (q ++ ',' :: s) ≠ [] := by simp
  have hparse : parse_flags (m ++ ',' :: (q ++ ',' :: s)) = ⟨m, q, s⟩ := by
    unfold parse_flags
    rw [if_neg hne]
    dsimp only
    rw [strip_comma_join hm' hs' q]
    rw [if_pos (by simp : ',' ∈ m ++ ',' :: (q ++ ',' :: s))]
    rw [splitOnComma_append hm, splitOnComma_append hq,
      splitOnComma_of_not_mem hs]
    simp only [List.getD_cons_zero, List.getD_cons_succ]
    rw [hm', hq', hs']
  exact ⟨hparse, by rw [hparse]⟩

/-- **C8** (witness): the repository's own sample triplet string
`"B,D,0"` parses to (B, D, 0) and re-joins to `"B,D,0"`. -/
theorem c8_parse_flags_roundtrip_witness :
    parse_flags (['B'] ++ ',' :: (['D'] ++ ',' :: ['0'])) =
      ⟨['B'], ['D'], ['0']⟩ ∧
    (parse_flags (['B'] ++ ',' :: (['D'] ++ ',' :: ['0']))).mflag ++ ',' ::
        ((parse_flags (['B'] ++ ',' :: (['D'] ++ ',' :: ['0']))).qflag ++ ',' ::
          (parse_flags (['B'] ++ ',' :: (['D'] ++ ',' :: ['0']))).sflag) =
      ['B'] ++ ',' :: (['D'] ++ ',' :: ['0']) :=
  c8_parse_flags_roundtrip ['B'] ['D'] ['0'] (by decide) (by decide)
    (by decide) (by decide) (by decide) (by decide)
